import Mathlib

/-!
Verification of the clean_front client: a shallow embedding of the
authentication context, the resource API modules, the data-access hooks and
the relevant page handlers, with theorems checking the claims of the specification against the embedded code.
-/

namespace CleanFront

/-! ### Browser storage (localStorage)

Persisted browser storage is a string-keyed map of strings, modelled as an
association list. getItem returns the first binding; setItem replaces any
existing binding for the key; removeItem deletes all bindings for the key. -/

/-- A snapshot of the durable browser key-value storage. -/
def Store : Type := List (String × String)

/-- localStorage.getItem: the value stored under a key, if any. -/
def getItem (s : Store) (k : String) : Option String :=
  (s.find? (fun p => p.1 = k)).map (fun p => p.2)

/-- localStorage.setItem: store a value under a key, replacing any previous binding. -/
def setItem (s : Store) (k v : String) : Store :=
  (k, v) :: s.filter (fun p => p.1 ≠ k)

/-- localStorage.removeItem: drop all bindings for a key. -/
def removeItem (s : Store) (k : String) : Store :=
  s.filter (fun p => p.1 ≠ k)

theorem find?_filter_ne (t : Store) (k k' : String) (h : k' ≠ k) :
    List.find? (fun p => p.1 = k') (List.filter (fun p => p.1 ≠ k) t)
      = List.find? (fun p => p.1 = k') t := by
  rw [List.find?_filter]
  congr 1
  funext a
  by_cases ha : a.1 = k'
  · have hak : a.1 ≠ k := by rw [ha]; exact h
    simp [ha, hak, h]
  · simp [ha]

theorem find?_filter_self (t : Store) (k : String) :
    List.find? (fun p => p.1 = k) (List.filter (fun p => p.1 ≠ k) t) = none := by
  rw [List.find?_filter, List.find?_eq_none]
  intro x hx
  by_cases hxk : x.1 = k <;> simp [hxk]

theorem getItem_setItem_same (s : Store) (k v : String) :
    getItem (setItem s k v) k = some v := by
  simp [getItem, setItem, List.find?_cons]

theorem getItem_setItem_other (s : Store) (k k' v : String) (h : k' ≠ k) :
    getItem (setItem s k v) k' = getItem s k' := by
  simp only [getItem, setItem, List.find?_cons]
  rw [decide_eq_false (by simpa using Ne.symm h)]
  rw [find?_filter_ne s k k' h]

theorem getItem_removeItem_same (s : Store) (k : String) :
    getItem (removeItem s k) k = none := by
  simp only [getItem, removeItem]
  rw [find?_filter_self s k]
  rfl

theorem getItem_removeItem_other (s : Store) (k k' : String) (h : k' ≠ k) :
    getItem (removeItem s k) k' = getItem s k' := by
  simp only [getItem, removeItem]
  rw [find?_filter_ne s k k' h]

/-! ### Authentication context (AuthContext.tsx)

The session state of the AuthProvider: the isAuthenticated flag, the lazily
fetched member profile, together with the persisted storage the provider
reads and writes. -/

/-- Modelled from the spec: the Member profile record returned by
GET /members/profile (the types/member.ts module is not among the shown
sources; the spec lists identity and contact attributes). Only its identity
matters to the session claims. -/
structure Member where
  email : String
  phoneNumber : String
deriving DecidableEq, Repr

/-- The session state of the authentication context plus persisted storage. -/
structure AuthState where
  isAuthenticated : Bool
  member : Option Member
  storage : Store

/-- Initialization on first mount (the useEffect): read the persisted token
synchronously and set isAuthenticated when one is present; member starts null. -/
def initialState (storage : Store) : AuthState :=
  { isAuthenticated := (getItem storage "token").isSome
    member := none
    storage := storage }

/-- login(token, refreshToken): persist both tokens and set
isAuthenticated to true. The member profile is not touched and no request
is made. -/
def login (st : AuthState) (token refreshToken : String) : AuthState :=
  { st with
    storage := setItem (setItem st.storage "token" token) "refreshToken" refreshToken
    isAuthenticated := true }

/-- logout(): remove both persisted tokens, clear the flag and the member.
A total function: logout has no failure path. -/
def logout (st : AuthState) : AuthState :=
  { st with
    storage := removeItem (removeItem st.storage "token") "refreshToken"
    isAuthenticated := false
    member := none }

/-- fetchProfile(): one authenticated read of the profile. On success the
result is stored in member; on any failure the catch block logs and calls
logout(). The outcome of the underlying HTTP request is passed explicitly;
the function is total, so no error escapes to the caller. -/
def fetchProfile (st : AuthState) (result : Except Unit Member) : AuthState :=
  match result with
  | Except.ok m => { st with member := some m }
  | Except.error _ => logout st

theorem removeBoth_token (s : Store) :
    getItem (removeItem (removeItem s "token") "refreshToken") "token" = none := by
  rw [getItem_removeItem_other _ "refreshToken" "token" (by decide)]
  exact getItem_removeItem_same _ "token"

theorem removeBoth_refresh (s : Store) :
    getItem (removeItem (removeItem s "token") "refreshToken") "refreshToken" = none :=
  getItem_removeItem_same _ "refreshToken"

/-- C1: for every prior session state, logout() yields isAuthenticated =
false, member = null and both persisted keys absent; logout is a total
function, so it never fails. -/
theorem logout_clears_session (st : AuthState) :
    (logout st).isAuthenticated = false ∧
    (logout st).member = none ∧
    getItem (logout st).storage "token" = none ∧
    getItem (logout st).storage "refreshToken" = none :=
  ⟨rfl, rfl, removeBoth_token st.storage, removeBoth_refresh st.storage⟩

/-- C2: for every session state and every failure of the underlying request,
the state after fetchProfile() equals the state after logout(); the error is
swallowed by the catch block, never re-thrown (fetchProfile is total). -/
theorem fetchProfile_failure_eq_logout (st : AuthState) (e : Unit) :
    fetchProfile st (Except.error e) = logout st := rfl

/-- C4: after login(t, r), isAuthenticated is true, storage holds exactly t
under "token" and r under "refreshToken", and member is unchanged; login
performs no profile fetch and no HTTP request. -/
theorem login_persists_tokens (st : AuthState) (t r : String) :
    (login st t r).isAuthenticated = true ∧
    getItem (login st t r).storage "token" = some t ∧
    getItem (login st t r).storage "refreshToken" = some r ∧
    (login st t r).member = st.member := by
  refine ⟨rfl, ?_, ?_, rfl⟩
  · rw [login]
    rw [getItem_setItem_other _ "refreshToken" "token" _ (by decide)]
    exact getItem_setItem_same _ "token" t
  · exact getItem_setItem_same _ "refreshToken" r

/-! ### Reachable session states

One step of the authentication context: a login, a logout, or a fetchProfile
that either succeeds or fails. The profile read is bearer-authenticated with
the header taken from persisted storage (spec section 6 and the api client
configuration, which is not among the shown sources), so a successful
fetchProfile step is modelled as possible only when a token is persisted;
failures can happen at any time. -/

/-- One operation of the authentication context, relating a session state to
its successor. The token guard on fetchOk is modelled from the spec: the
profile endpoint is bearer-authenticated and the client attaches the header
read from persisted storage, so the request cannot succeed with no persisted
token. -/
inductive Step : AuthState → AuthState → Prop where
  | stepLogin (st : AuthState) (t r : String) : Step st (login st t r)
  | stepLogout (st : AuthState) : Step st (logout st)
  | stepFetchOk (st : AuthState) (m : Member)
      (h : (getItem st.storage "token").isSome) :
      Step st (fetchProfile st (Except.ok m))
  | stepFetchErr (st : AuthState) (e : Unit) :
      Step st (fetchProfile st (Except.error e))

/-- Session states reachable from initialization on an arbitrary persisted
storage through any sequence of operations. -/
inductive Reachable : AuthState → Prop where
  | init (storage : Store) : Reachable (initialState storage)
  | step {st st2 : AuthState} : Reachable st → Step st st2 → Reachable st2

theorem step_preserves_invariant {s1 s2 : AuthState} (hs : Step s1 s2)
    (ih : ((getItem s1.storage "token").isSome → s1.isAuthenticated = true) ∧
          (s1.member ≠ none → s1.isAuthenticated = true)) :
    ((getItem s2.storage "token").isSome → s2.isAuthenticated = true) ∧
    (s2.member ≠ none → s2.isAuthenticated = true) := by
  cases hs with
  | stepLogin t r => exact ⟨fun _ => rfl, fun _ => rfl⟩
  | stepLogout =>
    refine ⟨fun ht => ?_, fun hm => absurd rfl hm⟩
    have ht2 : (getItem (removeItem (removeItem s1.storage "token")
        "refreshToken") "token").isSome = true := ht
    rw [removeBoth_token] at ht2
    exact absurd ht2 (by simp)
  | stepFetchOk m htok =>
    have hauth : s1.isAuthenticated = true := ih.1 htok
    exact ⟨fun _ => hauth, fun _ => hauth⟩
  | stepFetchErr e =>
    refine ⟨fun ht => ?_, fun hm => absurd rfl hm⟩
    have ht2 : (getItem (removeItem (removeItem s1.storage "token")
        "refreshToken") "token").isSome = true := ht
    rw [removeBoth_token] at ht2
    exact absurd ht2 (by simp)

theorem reachable_invariant {st : AuthState} (h : Reachable st) :
    ((getItem st.storage "token").isSome → st.isAuthenticated = true) ∧
    (st.member ≠ none → st.isAuthenticated = true) := by
  induction h with
  | init storage => exact ⟨fun ht => ht, fun hm => absurd rfl hm⟩
  | step _ hs ih => exact step_preserves_invariant hs ih

/-- C3: in every session state reachable by any sequence of operations of the context (initialization, login, logout, fetchProfile success or failure),
a non-null member implies isAuthenticated = true. -/
theorem member_implies_authenticated {st : AuthState} (h : Reachable st)
    (hm : st.member ≠ none) : st.isAuthenticated = true :=
  (reachable_invariant h).2 hm

/-- Witness for C3: after initialization on empty storage, a login and a
successful fetchProfile, the member is non-null and the invariant gives
isAuthenticated = true. -/
theorem member_implies_authenticated_witness :
    (fetchProfile (login (initialState ([] : Store)) "tok" "ref")
        (Except.ok ⟨"a@b.c", "01000000000"⟩)).member ≠ none ∧
    (fetchProfile (login (initialState ([] : Store)) "tok" "ref")
        (Except.ok ⟨"a@b.c", "01000000000"⟩)).isAuthenticated = true := by
  refine ⟨by simp [fetchProfile], ?_⟩
  exact member_implies_authenticated
    (Reachable.step
      (Reachable.step (Reachable.init ([] : Store))
        (Step.stepLogin _ "tok" "ref"))
      (Step.stepFetchOk _ ⟨"a@b.c", "01000000000"⟩ (by rfl)))
    (by simp [fetchProfile])

/-! ### Partner withdrawal (PartnerEdit.tsx, handleWithdraw)

After the interactive confirmation, a successful withdrawal removes both
persisted tokens and navigates away; the handler never calls the logout of the context, so isAuthenticated and member are left as they were. On failure it
only alerts. -/

/-- handleWithdraw on the PartnerEdit page: when confirmed and the withdraw
mutation succeeds, remove both persisted tokens (the context state is not
touched); otherwise leave everything unchanged. -/
def handleWithdraw (st : AuthState) (confirmed : Bool)
    (result : Except Unit Unit) : AuthState :=
  if confirmed then
    match result with
    | Except.ok _ =>
        { st with storage := removeItem (removeItem st.storage "token") "refreshToken" }
    | Except.error _ => st
  else st

/-- C10: a confirmed, successful withdrawal removes both persisted keys but
does not modify the state of the authentication context: isAuthenticated and
member keep their previous values, since the flow never invokes logout. -/
theorem withdraw_removes_tokens_keeps_context (st : AuthState) :
    (handleWithdraw st true (Except.ok ())).isAuthenticated = st.isAuthenticated ∧
    (handleWithdraw st true (Except.ok ())).member = st.member ∧
    getItem (handleWithdraw st true (Except.ok ())).storage "token" = none ∧
    getItem (handleWithdraw st true (Except.ok ())).storage "refreshToken" = none :=
  ⟨rfl, rfl, removeBoth_token st.storage, removeBoth_refresh st.storage⟩

/-! ### Commission records and the query cache (useCommissions.ts)

Query keys are either a list-level key or an item-level key carrying an
identifier. The client cache maps keys to cached entities and records which
keys have been invalidated. -/

/-- Modelled from the spec: the Commission record (types/commission.ts is not
among the shown sources; the spec lists the fields, with size a nullable
numeric and addressId numeric, nullable in the form state). -/
structure Commission where
  commissionId : Nat
  memberNick : String
  size : Option Int
  houseType : String
  cleanType : String
  addressId : Option Int
  image : String
  desiredDate : String
  significant : String
deriving DecidableEq, Repr

/-- A react-query cache key: either a list-level key or an item-level key
with an identifier. String keys such as the one of useCommissions normalize
to the one-element list-level form. -/
inductive QKey where
  | list (name : String)
  | item (name : String) (id : Nat)
deriving DecidableEq, Repr

/-- The client-side query cache: cached commissions by key, plus the set of
keys marked stale by invalidateQueries. -/
structure QueryCache where
  data : List (QKey × Commission)
  invalidated : List QKey

/-- queryClient.setQueryData: seed the cache entry for a key. -/
def setQueryData (c : QueryCache) (k : QKey) (v : Commission) : QueryCache :=
  { c with data := (k, v) :: c.data.filter (fun p => p.1 ≠ k) }

/-- queryClient.invalidateQueries: mark a key stale, forcing a refetch on
next use. -/
def invalidateQueries (c : QueryCache) (k : QKey) : QueryCache :=
  { c with invalidated := k :: c.invalidated }

/-- Cache lookup as performed by a query hook for its key. -/
def lookupQuery (c : QueryCache) (k : QKey) : Option Commission :=
  (c.data.find? (fun p => p.1 = k)).map (fun p => p.2)

/-- The onSuccess handler of useCreateCommission: invalidate the list key
and seed the item key it names for the returned commission. -/
def createCommissionOnSuccess (c : QueryCache) (newCommission : Commission) :
    QueryCache :=
  setQueryData (invalidateQueries c (QKey.list "commissions"))
    (QKey.item "Commission" newCommission.commissionId) newCommission

/-- The cache key of useCommission(id), the single-commission query hook. -/
def useCommissionKey (id : Nat) : QKey := QKey.item "commission" id

/-- The cache key of useCommissions, the commission-list query hook. -/
def useCommissionsKey : QKey := QKey.list "commissions"

def emptyCache : QueryCache := { data := [], invalidated := [] }

/-- A concrete commission as returned by a successful create. -/
def sampleCommission : Commission :=
  { commissionId := 1
    memberNick := "nick"
    size := some 10
    houseType := "APT"
    cleanType := "NORMAL"
    addressId := some 3
    image := "img.png"
    desiredDate := "2024-01-01T00:00:00Z"
    significant := "" }

/-- C5: on a successful create the list key is invalidated, but the entity
is seeded under the item key with name "Commission" while useCommission(id)
looks up the key with name "commission", so the subsequent single-commission
query for the returned identifier does not find the seeded entry. -/
theorem create_seeds_key_not_read_by_useCommission :
    useCommissionsKey ∈
      (createCommissionOnSuccess emptyCache sampleCommission).invalidated ∧
    lookupQuery (createCommissionOnSuccess emptyCache sampleCommission)
      (useCommissionKey sampleCommission.commissionId) = none ∧
    lookupQuery (createCommissionOnSuccess emptyCache sampleCommission)
      (QKey.item "Commission" sampleCommission.commissionId) = some sampleCommission := by
  refine ⟨?_, ?_, ?_⟩
  · simp [createCommissionOnSuccess, invalidateQueries, setQueryData, emptyCache,
      useCommissionsKey]
  · rfl
  · rfl

/-! ### Estimate API requests (api/estimate.ts)

Each API function builds one HTTP request. The three mutations read the
persisted token at call time and attach a bearer Authorization header; the
two list reads pass no headers. Request bodies are orthogonal to these
claims and are omitted from the embedding. -/

/-- An outgoing HTTP request: method, url and the explicitly attached
headers. -/
structure Request where
  method : String
  url : String
  headers : List (String × String)

/-- JS template-literal rendering of a possibly-null string, as in the
interpolation of localStorage.getItem into the header value. -/
def jsString (o : Option String) : String :=
  match o with
  | some s => s
  | none => "null"

/-- createEstimate: POST /partner/estimate with a bearer header read from
persisted storage at call time. -/
def createEstimateRequest (storage : Store) : Request :=
  { method := "POST"
    url := "/partner/estimate"
    headers := [("Authorization", "Bearer " ++ jsString (getItem storage "token"))] }

/-- updateEstimate: PATCH /partner/estimate?id= with bearer and Accept
headers, the token read from persisted storage at call time. -/
def updateEstimateRequest (storage : Store) (id : Nat) : Request :=
  { method := "PATCH"
    url := "/partner/estimate?id=" ++ toString id
    headers := [("Authorization", "Bearer " ++ jsString (getItem storage "token")),
                ("Accept", "*/*")] }

/-- deleteEstimate: DELETE /partner/estimate?id= with a bearer header read
from persisted storage at call time. -/
def deleteEstimateRequest (storage : Store) (id : Nat) : Request :=
  { method := "DELETE"
    url := "/partner/estimate?id=" ++ toString id
    headers := [("Authorization", "Bearer " ++ jsString (getItem storage "token"))] }

/-- getEstimateList: GET /partner/estimate/list with no explicit headers. -/
def getEstimateListRequest : Request :=
  { method := "GET", url := "/partner/estimate/list", headers := [] }

/-- getCommissionList: GET /partner/commissionlist with no explicit headers. -/
def getCommissionListRequest : Request :=
  { method := "GET", url := "/partner/commissionlist", headers := [] }

/-- C6: when storage holds t under "token", every estimate mutation carries
the header Authorization: Bearer t read from persisted storage at call time,
while the two list reads carry no Authorization header. -/
theorem estimate_mutations_bearer_lists_bare (storage : Store) (t : String)
    (id : Nat) (h : getItem storage "token" = some t) :
    (createEstimateRequest storage).headers = [("Authorization", "Bearer " ++ t)] ∧
    ("Authorization", "Bearer " ++ t) ∈ (updateEstimateRequest storage id).headers ∧
    (deleteEstimateRequest storage id).headers = [("Authorization", "Bearer " ++ t)] ∧
    (∀ p ∈ getEstimateListRequest.headers, p.1 ≠ "Authorization") ∧
    (∀ p ∈ getCommissionListRequest.headers, p.1 ≠ "Authorization") := by
  refine ⟨?_, ?_, ?_, ?_, ?_⟩
  · simp [createEstimateRequest, jsString, h]
  · simp [updateEstimateRequest, jsString, h]
  · simp [deleteEstimateRequest, jsString, h]
  · intro p hp
    simp [getEstimateListRequest] at hp
  · intro p hp
    simp [getCommissionListRequest] at hp

/-- Witness for C6: a concrete storage holding "tok" yields the concrete
bearer header on createEstimate. -/
theorem estimate_mutations_bearer_lists_bare_witness :
    getItem ([("token", "tok")] : Store) "token" = some "tok" ∧
    (createEstimateRequest ([("token", "tok")] : Store)).headers
      = [("Authorization", "Bearer " ++ "tok")] :=
  ⟨rfl, (estimate_mutations_bearer_lists_bare ([("token", "tok")] : Store)
    "tok" 42 rfl).1⟩

/-! ### Estimate list page (MyEstimates.tsx, handleDelete) -/

/-- The Estimate record as listed on the page (types/estimate.ts fields used
by the page and the api module). -/
structure Estimate where
  id : Nat
  commissionId : Nat
  tmpPrice : Int
  statement : String
  fixedDate : String
deriving DecidableEq, Repr

/-- handleDelete on the MyEstimates page: after the interactive
confirmation, a successful delete filters the estimate with the given id out
of the locally held list; a failed delete shows a generic alert and leaves
the list untouched. The boolean result records whether the alert was
shown. -/
def handleDelete (estimates : List Estimate) (id : Nat) (confirmed : Bool)
    (deleteResult : Except Unit String) : List Estimate × Bool :=
  if confirmed then
    match deleteResult with
    | Except.ok _ => (estimates.filter (fun e => e.id ≠ id), false)
    | Except.error _ => (estimates, true)
  else (estimates, false)

/-- C7: after confirmation, a successful delete removes every estimate with
the given id, keeps all others in their original order (the result is a
sublist of the original), and shows no alert; a failed delete shows the
alert and leaves the list completely unchanged. -/
theorem delete_success_filters_failure_alerts (estimates : List Estimate)
    (id : Nat) (msg : String) :
    (∀ e ∈ (handleDelete estimates id true (Except.ok msg)).1, e.id ≠ id) ∧
    (handleDelete estimates id true (Except.ok msg)).1.Sublist estimates ∧
    (∀ e ∈ estimates, e.id ≠ id →
      e ∈ (handleDelete estimates id true (Except.ok msg)).1) ∧
    (handleDelete estimates id true (Except.ok msg)).2 = false ∧
    handleDelete estimates id true (Except.error ()) = (estimates, true) := by
  refine ⟨?_, ?_, ?_, rfl, rfl⟩
  · intro e he
    simpa using (List.mem_filter.1 he).2
  · exact List.filter_sublist estimates
  · intro e he hne
    exact List.mem_filter.2 ⟨he, by simpa using hne⟩

/-- Witness for C7: in a two-element list, deleting id 42 keeps the estimate
with id 7, and a failed delete leaves the list unchanged with the alert
shown. -/
theorem delete_success_filters_failure_alerts_witness :
    (⟨7, 2, 200, "u", "e"⟩ : Estimate) ∈
      (handleDelete [⟨42, 1, 100, "s", "d"⟩, ⟨7, 2, 200, "u", "e"⟩]
        42 true (Except.ok "ok")).1 ∧
    handleDelete [⟨42, 1, 100, "s", "d"⟩, ⟨7, 2, 200, "u", "e"⟩]
        42 true (Except.error ())
      = ([⟨42, 1, 100, "s", "d"⟩, ⟨7, 2, 200, "u", "e"⟩], true) :=
  ⟨(delete_success_filters_failure_alerts
      [⟨42, 1, 100, "s", "d"⟩, ⟨7, 2, 200, "u", "e"⟩] 42 "ok").2.2.1
      ⟨7, 2, 200, "u", "e"⟩ (by simp) (by decide),
   (delete_success_filters_failure_alerts
      [⟨42, 1, 100, "s", "d"⟩, ⟨7, 2, 200, "u", "e"⟩] 42 "ok").2.2.2.2⟩

/-! ### Commission write form (CommissionWrite, handleChange / handleSubmit)

The form state is the Commission record minus the server-assigned fields.
For the fields named size and addressId a change event stores null when the
incoming value is the empty string and the numeric conversion of the value
otherwise; every other known field stores the raw string. -/

/-- The commission form state: Commission without commissionId and
memberNick. -/
structure CommissionForm where
  size : Option Int
  houseType : String
  cleanType : String
  addressId : Option Int
  image : String
  desiredDate : String
  significant : String
deriving DecidableEq, Repr

/-- JS Number conversion restricted to the values a number input yields:
the empty string converts to 0 and an integral decimal string to its
value. -/
def jsNumber (s : String) : Int :=
  (s.toInt?).getD 0

/-- handleChange on the commission form: for size and addressId the empty
string becomes null and any other value its numeric conversion; the other
known fields store the raw value. -/
def commissionHandleChange (form : CommissionForm) (name value : String) :
    CommissionForm :=
  if name = "addressId" ∨ name = "size" then
    let numValue : Option Int := if value = "" then none else some (jsNumber value)
    if name = "addressId" then { form with addressId := numValue }
    else { form with size := numValue }
  else if name = "houseType" then { form with houseType := value }
  else if name = "cleanType" then { form with cleanType := value }
  else if name = "image" then { form with image := value }
  else if name = "desiredDate" then { form with desiredDate := value }
  else if name = "significant" then { form with significant := value }
  else form

/-- The payload built by handleSubmit: the form spread with desiredDate
replaced by its ISO rendering (the date conversion is an opaque input
here); all other fields, size included, pass through unchanged. -/
def commissionPayload (form : CommissionForm) (isoDate : String) :
    CommissionForm :=
  { form with desiredDate := isoDate }

/-- C8: a change event on size with the empty string stores null in the form
state and hence null in the outgoing payload, not zero and not an error;
a change event with any non-empty value stores its numeric conversion. -/
theorem size_empty_string_maps_to_null (form : CommissionForm)
    (v isoDate : String) (hv : v ≠ "") :
    (commissionHandleChange form "size" "").size = none ∧
    (commissionHandleChange form "size" "").size ≠ some 0 ∧
    (commissionPayload (commissionHandleChange form "size" "") isoDate).size
      = none ∧
    (commissionHandleChange form "size" v).size = some (jsNumber v) := by
  refine ⟨rfl, by simp [commissionHandleChange], rfl, ?_⟩
  simp [commissionHandleChange, hv]

/-- Witness for C8: with the concrete non-empty value "34" the form stores
34, and the empty string stores null. -/
theorem size_empty_string_maps_to_null_witness :
    ("34" : String) ≠ "" ∧
    (commissionHandleChange
      ⟨none, "", "", some 0, "", "", ""⟩ "size" "34").size = some (jsNumber "34") ∧
    (commissionHandleChange
      ⟨none, "", "", some 0, "", "", ""⟩ "size" "").size = none :=
  ⟨by decide,
   (size_empty_string_maps_to_null ⟨none, "", "", some 0, "", "", ""⟩
"34" "iso" (by decide)).2.2.2,
   (size_empty_string_maps_to_null ⟨none, "", "", some 0, "", "", ""⟩
"34" "iso" (by decide)).1⟩

/-! ### Partner edit form (PartnerEdit.tsx, handleChange / handleSubmit)

The form state and the per-field error record of the partner edit page. The
validation helpers live in utils/validationUtils, which is not among the
shown sources; the spec describes them as pure checks returning a message
string, empty for valid. -/

/-- The partner edit form state. -/
structure PartnerEditForm where
  email : String
  password : String
  confirmPassword : String
  phoneNumber : String
  managerName : String
  companyName : String
  businessType : String
  partnerType : String
deriving DecidableEq, Repr

/-- The per-field error record, with the optional general error banner. -/
structure FormErrors where
  password : String
  confirmPassword : String
  phoneNumber : String
  managerName : String
  companyName : String
  businessType : String
  partnerType : String
  general : Option String
deriving DecidableEq, Repr

/-- Modelled from the spec: validateConfirmPassword from
utils/validationUtils (not among the shown sources); a pure password
confirmation match check returning a message string, empty when the two
values match. -/
def validateConfirmPassword (password confirm : String) : String :=
  if password = confirm then "" else "비밀번호가 일치하지 않습니다."

/-- The confirmPassword branch of handleChange: store the value and the
validation message for it against the current password. -/
def handleChangeConfirmPassword (fd : PartnerEditForm) (errors : FormErrors)
    (value : String) : PartnerEditForm × FormErrors :=
  ({ fd with confirmPassword := value },
   { errors with confirmPassword := validateConfirmPassword fd.password value })

/-- handleSubmit on the partner edit page: when any of the three validated
field errors is non-empty, or the password is non-empty and differs from its
confirmation, set the general error and issue no request; otherwise issue
the update request, setting the general error if it fails. The boolean
result records whether the request was issued. -/
def partnerEditHandleSubmit (formData : PartnerEditForm) (errors : FormErrors)
    (updateResult : Except Unit Unit) : FormErrors × Bool :=
  if errors.phoneNumber ≠ "" ∨ errors.password ≠ "" ∨ errors.confirmPassword ≠ "" ∨
      (formData.password ≠ "" ∧ formData.password ≠ formData.confirmPassword) then
    ({ errors with general := some "입력한 정보를 다시 확인해주세요." }, false)
  else
    match updateResult with
    | Except.ok _ => (errors, true)
    | Except.error _ =>
        ({ errors with general := some "회원 정보 수정에 실패했습니다." }, true)

/-- C9: with a non-empty password differing from the typed confirmation, the
validation message for confirmPassword is non-empty, it is stored by
handleChange, and the submission is blocked locally: the general error is
set and no update request is issued; any non-empty field-level error blocks
the submission the same way. -/
theorem password_mismatch_blocks_submit (fd : PartnerEditForm)
    (errors : FormErrors) (v : String) (r : Except Unit Unit)
    (hp : fd.password ≠ "") (hne : fd.password ≠ v) :
    validateConfirmPassword fd.password v ≠ "" ∧
    (handleChangeConfirmPassword fd errors v).2.confirmPassword ≠ "" ∧
    (partnerEditHandleSubmit (handleChangeConfirmPassword fd errors v).1
      (handleChangeConfirmPassword fd errors v).2 r).2 = false ∧
    (partnerEditHandleSubmit (handleChangeConfirmPassword fd errors v).1
      (handleChangeConfirmPassword fd errors v).2 r).1.general
      = some "입력한 정보를 다시 확인해주세요." ∧
    (∀ e2 : FormErrors, e2.confirmPassword ≠ "" →
      (partnerEditHandleSubmit fd e2 r).2 = false) ∧
    (∀ e3 : FormErrors,
      (partnerEditHandleSubmit { fd with confirmPassword := v } e3 r).2 = false) := by
  have hval : validateConfirmPassword fd.password v ≠ "" := by
    simp [validateConfirmPassword, hne]
  refine ⟨hval, hval, ?_, ?_, ?_, ?_⟩
  · simp [partnerEditHandleSubmit, handleChangeConfirmPassword, hval]
  · simp [partnerEditHandleSubmit, handleChangeConfirmPassword, hval]
  · intro e2 he2
    simp [partnerEditHandleSubmit, he2]
  · intro e3
    simp [partnerEditHandleSubmit, hp, hne]

/-- Witness for C9: password "abc" with confirmation "abcd" yields a
non-empty validation message and a blocked submission with no request
issued. -/
theorem password_mismatch_blocks_submit_witness :
    validateConfirmPassword "abc" "abcd" ≠ "" ∧
    (partnerEditHandleSubmit
      (handleChangeConfirmPassword
        ⟨"p@x.y", "abc", "", "0100000", "m", "c", "b", "INDIVIDUAL"⟩
        ⟨"", "", "", "", "", "", "", none⟩ "abcd").1
      (handleChangeConfirmPassword
        ⟨"p@x.y", "abc", "", "0100000", "m", "c", "b", "INDIVIDUAL"⟩
        ⟨"", "", "", "", "", "", "", none⟩ "abcd").2
      (Except.ok ())).2 = false :=
  ⟨(password_mismatch_blocks_submit
      ⟨"p@x.y", "abc", "", "0100000", "m", "c", "b", "INDIVIDUAL"⟩
      ⟨"", "", "", "", "", "", "", none⟩ "abcd" (Except.ok ())
      (by decide) (by decide)).1,
   (password_mismatch_blocks_submit
      ⟨"p@x.y", "abc", "", "0100000", "m", "c", "b", "INDIVIDUAL"⟩
      ⟨"", "", "", "", "", "", "", none⟩ "abcd" (Except.ok ())
      (by decide) (by decide)).2.2.1⟩

end CleanFront
